import Mathlib

/-!
# setupapi: a shallow embedding of `setupapi_windows.go`

The Go file binds four entry points of the Windows Setup API.  Every native
entry point (the lower-case functions declared on the `//sys` lines) is taken
as a parameter: a `Native σ` is an arbitrary, stateful implementation of the
four calls over a world state `σ`.  The exported Go functions are translated
as state-passing functions over such a layer.  Machine integers are natural
numbers; `uint32` and `uint16` are the explicit truncations.
-/

namespace Setupapi

/-! ## Machine integers -/

/-- Conversion to a 32-bit unsigned value. -/
def uint32 (n : Nat) : Nat := n % 2 ^ 32

/-- Conversion to a 16-bit unsigned value. -/
def uint16 (n : Nat) : Nat := n % 2 ^ 16

/-- Go `type Handle uintptr`. -/
abbrev Handle := Nat

/-- Go `type DevInfo Handle`. -/
abbrev DevInfo := Nat

/-- Go `type Error int`; the `error` interface value is `Option Errno`, with
`none` standing for `nil`. -/
abbrev Errno := Nat

/-- Go `error`: `none` is the nil error. -/
abbrev Err := Option Errno

/-! ## Data model -/

/-- Go `type Guid struct`: `Data1 uint32`, `Data2 uint16`, `Data3 uint16`,
`Data4 [8]byte`. -/
structure Guid where
  Data1 : Nat
  Data2 : Nat
  Data3 : Nat
  Data4 : List Nat
  deriving DecidableEq, Repr

/-- The zero value of `Guid`, as produced by `make` and by a composite literal without fields. -/
def Guid.zero : Guid := ⟨0, 0, 0, [0, 0, 0, 0, 0, 0, 0, 0]⟩

/-- Go `type spDeviceInformationData struct`. -/
structure spDeviceInformationData where
  cbSize : Nat
  ClassGuid : Guid
  DevInst : Nat
  reserved : Nat
  deriving DecidableEq, Repr

/-- Go `type SPDeviceInformationData struct`: the embedded record and the
set handle it was enumerated from. -/
structure SPDeviceInformationData where
  spDeviceInformationData : spDeviceInformationData
  devInfo : DevInfo
  deriving DecidableEq, Repr

/-! ## `fmt` verbs used by `Guid.String` -/

/-- The digit table `udigits` of package `fmt` ("0123456789ABCDEFX"), indexed
by a value below 16. -/
def udigit (d : Nat) : Char :=
  "0123456789ABCDEF".toList.getD d '?'

/-- The digit loop of `fmt.fmtInteger` in base 16: digits are produced right
to left while `u >= 16`, then the last digit.  The fuel is the number of
digits a 64-bit value can have. -/
def hexLoop : Nat → Nat → List Char → List Char
  | 0, u, acc => udigit (u % 16) :: acc
  | fuel + 1, u, acc =>
    if 16 ≤ u then hexLoop fuel (u / 16) (udigit (u % 16) :: acc)
    else udigit u :: acc

/-- Verb `%0wX` on an unsigned integer: the hexadecimal digits, then leading
zeros while fewer than `wid` characters were written. -/
def fmtIntegerX (wid : Nat) (u : Nat) : List Char :=
  let ds := hexLoop 16 u []
  List.replicate (wid - ds.length) '0' ++ ds

/-- Verb `%0wX` on a byte slice (`fmt.fmtSbx`): two digits per byte, padded
on the left when the requested width exceeds the encoded width. -/
def fmtBytesX (wid : Nat) (b : List Nat) : List Char :=
  let body := b.flatMap fun c => [udigit (c / 16), udigit (c % 16)]
  if b.length = 0 then List.replicate wid '0'
  else List.replicate (wid - 2 * b.length) '0' ++ body

/-- Go `func (g Guid) String() string`, that is
`fmt.Sprintf` with the verbs `%06X-%04X-%04X-%04X-%X` between braces, applied to
`g.Data1, g.Data2, g.Data3, g.Data4[0:2], g.Data4[2:]`. -/
def Guid.String (g : Guid) : String :=
  String.mk (['\x7b'] ++ fmtIntegerX 6 g.Data1 ++ ['-'] ++ fmtIntegerX 4 g.Data2 ++ ['-']
    ++ fmtIntegerX 4 g.Data3 ++ ['-'] ++ fmtBytesX 4 (g.Data4.take 2) ++ ['-']
    ++ fmtBytesX 0 (g.Data4.drop 2) ++ ['\x7d'])

/-! ## The native layer -/

/-- What `setupDiClassGuidsFromNameEx` leaves behind: the new world, the
contents written through `guid`, the value stored in `*required_size`, and the
returned error. -/
structure ClassGuidsResult (σ : Type) where
  world : σ
  guid : List Guid
  required_size : Nat
  err : Err

/-- What `setupDiGetClassDevsEx` returns. -/
structure ClassDevsResult (σ : Type) where
  world : σ
  handle : Handle
  err : Err

/-- What `setupDiEnumDeviceInfo` leaves behind: the record as it stands in
`*DeviceInfoData` after the call, and the returned error. -/
structure EnumResult (σ : Type) where
  world : σ
  DeviceInfoData : spDeviceInformationData
  err : Err

/-- What `setupDiGetDeviceInstanceId` leaves behind: the record in
`*DeviceInfoData`, the code units written through `DeviceInstanceId`, the value
stored in `*RequiredSize`, and the returned error. -/
structure InstanceIdResult (σ : Type) where
  world : σ
  DeviceInfoData : spDeviceInformationData
  DeviceInstanceId : List Nat
  RequiredSize : Nat
  err : Err

/-- The four native entry points of the `//sys` lines, over a world state `σ`.
A pointer argument is `none` for `nil` and otherwise carries the contents of the
memory it points at; the in/out cell `required_size` is passed by its current
value. -/
structure Native (σ : Type) where
  setupDiClassGuidsFromNameEx :
    σ → String → Option (List Guid) → Nat → Nat → String → Nat → ClassGuidsResult σ
  setupDiGetClassDevsEx :
    σ → Guid → Option String → Nat → Nat → Nat → String → Nat → ClassDevsResult σ
  setupDiEnumDeviceInfo :
    σ → Handle → Nat → spDeviceInformationData → EnumResult σ
  setupDiGetDeviceInstanceId :
    σ → Handle → spDeviceInformationData → Option (List Nat) → Nat → Nat → InstanceIdResult σ

/-- A run-time panic of the Go program. -/
inductive Panic where
  | indexOutOfRange (index length : Nat)
  deriving DecidableEq, Repr

/-- The effect of a native write on a buffer of fixed length: the written
contents replace the buffer from its start, the buffer keeps its length. -/
def store {α : Type} (buf written : List α) : List α :=
  written.take buf.length ++ buf.drop written.length

/-! ## Call log -/

/-- One native call with the arguments it received. -/
inductive Call where
  | classGuidsFromNameEx (ClassName : String) (guid : Option (List Guid)) (size : Nat)
      (required_size : Nat) (machineName : String) (reserved : Nat)
  | getClassDevsEx (ClassGuid : Guid) (Enumerator : Option String) (hwndParent : Nat)
      (Flags : Nat) (DeviceInfoSet : Nat) (MachineName : String) (reserved : Nat)
  | enumDeviceInfo (DeviceInfoSet : Handle) (MemberIndex : Nat)
      (DeviceInfoData : spDeviceInformationData)
  | getDeviceInstanceId (DeviceInfoSet : Handle) (DeviceInfoData : spDeviceInformationData)
      (DeviceInstanceId : Option (List Nat)) (DeviceInstanceIdSize : Nat) (RequiredSize : Nat)
  deriving DecidableEq, Repr

/-- A logged call together with the error status it returned. -/
structure Event where
  call : Call
  err : Err
  deriving DecidableEq, Repr

/-- The native layer `N` with a log: every call is appended to the log with
its arguments and returned error, and is otherwise answered by `N`. -/
def traced {σ : Type} (N : Native σ) : Native (σ × List Event) where
  setupDiClassGuidsFromNameEx := fun w ClassName guid size required_size machineName reserved =>
    let r := N.setupDiClassGuidsFromNameEx w.1 ClassName guid size required_size machineName reserved
    { world := (r.world, w.2 ++ [⟨.classGuidsFromNameEx ClassName guid size required_size
        machineName reserved, r.err⟩]),
      guid := r.guid, required_size := r.required_size, err := r.err }
  setupDiGetClassDevsEx := fun w ClassGuid Enumerator hwndParent Flags DeviceInfoSet
      MachineName reserved =>
    let r := N.setupDiGetClassDevsEx w.1 ClassGuid Enumerator hwndParent Flags DeviceInfoSet
      MachineName reserved
    { world := (r.world, w.2 ++ [⟨.getClassDevsEx ClassGuid Enumerator hwndParent Flags
        DeviceInfoSet MachineName reserved, r.err⟩]),
      handle := r.handle, err := r.err }
  setupDiEnumDeviceInfo := fun w DeviceInfoSet MemberIndex DeviceInfoData =>
    let r := N.setupDiEnumDeviceInfo w.1 DeviceInfoSet MemberIndex DeviceInfoData
    { world := (r.world, w.2 ++ [⟨.enumDeviceInfo DeviceInfoSet MemberIndex DeviceInfoData,
        r.err⟩]),
      DeviceInfoData := r.DeviceInfoData, err := r.err }
  setupDiGetDeviceInstanceId := fun w DeviceInfoSet DeviceInfoData DeviceInstanceId
      DeviceInstanceIdSize RequiredSize =>
    let r := N.setupDiGetDeviceInstanceId w.1 DeviceInfoSet DeviceInfoData DeviceInstanceId
      DeviceInstanceIdSize RequiredSize
    { world := (r.world, w.2 ++ [⟨.getDeviceInstanceId DeviceInfoSet DeviceInfoData
        DeviceInstanceId DeviceInstanceIdSize RequiredSize, r.err⟩]),
      DeviceInfoData := r.DeviceInfoData, DeviceInstanceId := r.DeviceInstanceId,
      RequiredSize := r.RequiredSize, err := r.err }

/-! ## `unsafe.Sizeof` -/

/-- Size and alignment of a field, in bytes. -/
structure Layout where
  size : Nat
  align : Nat
  deriving DecidableEq, Repr

/-- Round `off` up to a multiple of `a`. -/
def alignUp (off a : Nat) : Nat := (off + a - 1) / a * a

/-- The layout of a struct with the given fields, by the rule of the Go
compiler: each field at the next offset that is a multiple of its alignment,
the struct aligned as its most aligned field and its size rounded up to that. -/
def structLayout (fields : List Layout) : Layout :=
  let al := fields.foldl (fun a f => max a f.align) 1
  let fin := fields.foldl (fun off f => alignUp off f.align + f.size) 0
  ⟨alignUp fin al, al⟩

/-- The word size of the target: `windows/386` or `windows/amd64`. -/
inductive Arch where
  | x86
  | amd64
  deriving DecidableEq, Repr

/-- Size in bytes of `uintptr` on the target. -/
def Arch.ptrBytes : Arch → Nat
  | .x86 => 4
  | .amd64 => 8

/-- Layout of `Guid`: `uint32`, `uint16`, `uint16`, `[8]byte`. -/
def guidLayout : Layout := structLayout [⟨4, 4⟩, ⟨2, 2⟩, ⟨2, 2⟩, ⟨8, 1⟩]

/-- The value of `unsafe.Sizeof(did)` for `did` of type `spDeviceInformationData`:
`uint32`, `Guid`, `uint32`, `uintptr`. -/
def sizeofDeviceInformationData (a : Arch) : Nat :=
  (structLayout [⟨4, 4⟩, guidLayout, ⟨4, 4⟩, ⟨a.ptrBytes, a.ptrBytes⟩]).size

/-! ## UTF-16 decoding (library functions the Go file calls) -/

/-- Go `unicode/utf16.Decode`: a code unit outside the surrogate range is the
rune itself, a high surrogate followed by a low surrogate is the rune they
encode, any other surrogate is the replacement character U+FFFD.  The runes are
returned as the characters of the Go string `string(runes)`. -/
def utf16Decode : List Nat → List Char
  | [] => []
  | [r] =>
    if r < 0xd800 ∨ 0xe000 ≤ r then [Char.ofNat r] else [Char.ofNat 0xFFFD]
  | r :: r2 :: rest =>
    if r < 0xd800 ∨ 0xe000 ≤ r then Char.ofNat r :: utf16Decode (r2 :: rest)
    else if r < 0xdc00 ∧ 0xdc00 ≤ r2 ∧ r2 < 0xe000 then
      Char.ofNat ((((r - 0xd800) <<< 10) ||| (r2 - 0xdc00)) + 0x10000) :: utf16Decode rest
    else Char.ofNat 0xFFFD :: utf16Decode (r2 :: rest)

/-- The loop of `windows.UTF16ToString`: `s = s[:i]` at the first `i` with
`s[i] == 0`. -/
def truncateNul : List Nat → List Nat
  | [] => []
  | v :: rest => if v = 0 then [] else v :: truncateNul rest

/-- Go `golang.org/x/sys/windows.UTF16ToString`. -/
def UTF16ToString (s : List Nat) : String :=
  String.mk (utf16Decode (truncateNul s))

/-! ## Flag constants -/

/-- Go `type DIGCF uint32`. -/
abbrev DIGCF := Nat

/-- Go `Default DIGCF = 0x00000001`. -/
def Default : DIGCF := 0x00000001
/-- Go `Present DIGCF = 0x00000002`. -/
def Present : DIGCF := 0x00000002
/-- Go `AllClasses DIGCF = 0x00000004`. -/
def AllClasses : DIGCF := 0x00000004
/-- Go `Profile DIGCF = 0x00000008`. -/
def Profile : DIGCF := 0x00000008
/-- Go `DeviceInterface DIGCF = 0x00000010`. -/
def DeviceInterface : DIGCF := 0x00000010
/-- Go `InterfaceDevice DIGCF = 0x00000010`. -/
def InterfaceDevice : DIGCF := 0x00000010

/-- The five distinct flags. -/
def allFlags : List DIGCF := [Default, Present, AllClasses, Profile, DeviceInterface]

/-- The caller's combination `f1 | f2 | ...` of a list of flags. -/
def combine (fs : List DIGCF) : DIGCF := fs.foldl (fun acc f => acc ||| f) 0

/-! ## The exported operations -/

/-- Go `func SetupDiClassGuidsFromNameEx(className string, machineName string) ([]Guid, error)`.
The expression `&rets[0]` panics when `rets` is empty. -/
def SetupDiClassGuidsFromNameEx {σ : Type} (N : Native σ) (className machineName : String)
    (w : σ) : σ × Except Panic (List Guid × Err) :=
  let requiredSize := uint32 0
  let r1 := N.setupDiClassGuidsFromNameEx w className none 0 requiredSize machineName 0
  let requiredSize := uint32 r1.required_size
  let rets := List.replicate requiredSize Guid.zero
  if 0 < rets.length then
    let r2 := N.setupDiClassGuidsFromNameEx r1.world className (some rets) 1 requiredSize
      machineName 0
    (r2.world, .ok (store rets r2.guid, r2.err))
  else
    (r1.world, .error (.indexOutOfRange 0 rets.length))

/-- Go `func (di DevInfo) EnumDeviceInfo(memberIndex uint32) (*SPDeviceInformationData, error)`.
The returned pointer is `some` of the pointed-at element; `none` would be `nil`. -/
def DevInfo.EnumDeviceInfo {σ : Type} (N : Native σ) (a : Arch) (di : DevInfo)
    (memberIndex : Nat) (w : σ) : σ × Option SPDeviceInformationData × Err :=
  let did : spDeviceInformationData := ⟨0, Guid.zero, 0, 0⟩
  let did := { did with cbSize := uint32 (sizeofDeviceInformationData a) }
  let r := N.setupDiEnumDeviceInfo w di memberIndex did
  (r.world, some ⟨r.DeviceInfoData, di⟩, r.err)

/-- Go `func (did *SPDeviceInformationData) InstanceID() (string, error)`.  The
receiver is a pointer the native calls may write through, so the element as it
stands after the call is returned as well.  The expression `&buff[0]` panics
when `buff` is empty. -/
def SPDeviceInformationData.InstanceID {σ : Type} (N : Native σ)
    (did : SPDeviceInformationData) (w : σ) :
    σ × SPDeviceInformationData × Except Panic (String × Err) :=
  let requiredSize := uint32 0
  let r1 := N.setupDiGetDeviceInstanceId w did.devInfo did.spDeviceInformationData none 0
    requiredSize
  let did := { did with spDeviceInformationData := r1.DeviceInfoData }
  let requiredSize := uint32 r1.RequiredSize
  let buff := List.replicate requiredSize 0
  if 0 < buff.length then
    let r2 := N.setupDiGetDeviceInstanceId r1.world did.devInfo did.spDeviceInformationData
      (some buff) (uint32 buff.length) requiredSize
    let did := { did with spDeviceInformationData := r2.DeviceInfoData }
    let buff := store buff (r2.DeviceInstanceId.map uint16)
    match r2.err with
    | some e => (r2.world, did, .ok ("", some e))
    | none => (r2.world, did, .ok (UTF16ToString buff, none))
  else
    (r1.world, did, .error (.indexOutOfRange 0 buff.length))

/-- Go `func SetupDiGetClassDevsEx(ClassGuid Guid, Enumerator string, hwndParent uintptr,
Flags DIGCF, DeviceInfoSet uintptr, MachineName string, reserved uint32) (DevInfo, error)`. -/
def SetupDiGetClassDevsEx {σ : Type} (N : Native σ) (ClassGuid : Guid) (Enumerator : String)
    (hwndParent : Nat) (Flags : DIGCF) (DeviceInfoSet : Nat) (MachineName : String)
    (reserved : Nat) (w : σ) : σ × DevInfo × Err :=
  let _ := reserved
  let enumerator := if Enumerator = "" then none else some Enumerator
  let r := N.setupDiGetClassDevsEx w ClassGuid enumerator hwndParent (uint32 Flags)
    DeviceInfoSet MachineName 0
  (r.world, r.handle, r.err)

/-! ## A sample native layer

A small deterministic stand-in for the operating system, used to run the
operations on concrete inputs. -/

/-- Windows `ERROR_INSUFFICIENT_BUFFER`. -/
def ERROR_INSUFFICIENT_BUFFER : Errno := 122
/-- Windows `ERROR_NO_MORE_ITEMS`. -/
def ERROR_NO_MORE_ITEMS : Errno := 259
/-- Windows `ERROR_INVALID_HANDLE`. -/
def ERROR_INVALID_HANDLE : Errno := 6
/-- Windows `ERROR_INVALID_USER_BUFFER`. -/
def ERROR_INVALID_USER_BUFFER : Errno := 1784
/-- Windows `ERROR_INVALID_CLASS`. -/
def ERROR_INVALID_CLASS : Errno := 0xE0000206

/-- Windows `ERROR_NO_SUCH_DEVINST`. -/
def ERROR_NO_SUCH_DEVINST : Errno := 0xE000020B

/-- A device known to the sample system. -/
structure SimDevice where
  ClassGuid : Guid
  DevInst : Nat
  instanceId : List Nat
  deriving DecidableEq, Repr

/-- The state of the sample system: registered class names, installed devices,
and the device information sets created so far (the handle of a set is its
position plus one). -/
structure SimWorld where
  classes : List (String × List Guid)
  devices : List SimDevice
  sets : List (List SimDevice)
  deriving DecidableEq, Repr

/-- GUIDs registered under a class name in the sample system. -/
def SimWorld.guidsOf (w : SimWorld) (name : String) : List Guid :=
  match w.classes.find? (fun c => c.1 == name) with
  | some c => c.2
  | none => []

/-- The sample native layer, for a 64-bit target. -/
def simNative : Native SimWorld where
  setupDiClassGuidsFromNameEx := fun w ClassName guid size _ _ _ =>
    let gs := w.guidsOf ClassName
    if gs.length = 0 then ⟨w, [], 0, some ERROR_INVALID_CLASS⟩
    else if guid.isSome ∧ gs.length ≤ size then ⟨w, gs, gs.length, none⟩
    else ⟨w, gs.take size, gs.length, some ERROR_INSUFFICIENT_BUFFER⟩
  setupDiGetClassDevsEx := fun w ClassGuid _ _ _ _ _ _ =>
    let ds := w.devices.filter (fun d => d.ClassGuid == ClassGuid)
    ⟨{ w with sets := w.sets ++ [ds] }, w.sets.length + 1, none⟩
  setupDiEnumDeviceInfo := fun w h i did =>
    if did.cbSize ≠ 32 then ⟨w, did, some ERROR_INVALID_USER_BUFFER⟩
    else match w.sets.get? (h - 1) with
      | none => ⟨w, did, some ERROR_INVALID_HANDLE⟩
      | some ds =>
        match ds.get? i with
        | none => ⟨w, did, some ERROR_NO_MORE_ITEMS⟩
        | some d => ⟨w, { did with ClassGuid := d.ClassGuid, DevInst := d.DevInst }, none⟩
  setupDiGetDeviceInstanceId := fun w h did buf size req =>
    match w.sets.get? (h - 1) with
    | none => ⟨w, did, [], req, some ERROR_INVALID_HANDLE⟩
    | some ds =>
      match ds.find? (fun d => d.DevInst == did.DevInst) with
      | none => ⟨w, did, [], req, some ERROR_NO_SUCH_DEVINST⟩
      | some d =>
        let text := d.instanceId ++ [0]
        if buf.isSome ∧ text.length ≤ size then ⟨w, did, text, text.length, none⟩
        else ⟨w, did, [], text.length, some ERROR_INSUFFICIENT_BUFFER⟩

/-- The class GUID of processors. -/
def processorGuid : Guid :=
  ⟨0x50127DC3, 0x0F36, 0x415E, [0xA6, 0xCC, 0x4C, 0xB3, 0xBE, 0x91, 0x0B, 0x65]⟩

/-- The class GUID of ports. -/
def portsGuid : Guid :=
  ⟨0x4D36E978, 0xE325, 0x11CE, [0xBF, 0xC1, 0x08, 0x00, 0x2B, 0xE1, 0x03, 0x18]⟩

/-- The class GUID of modems. -/
def modemGuid : Guid :=
  ⟨0x4D36E96D, 0xE325, 0x11CE, [0xBF, 0xC1, 0x08, 0x00, 0x2B, 0xE1, 0x03, 0x18]⟩

/-- A sample system: class "Processor" with one GUID, class "Ports" registered
under two GUIDs, and one processor whose instance identifier is "CPU". -/
def simWorld : SimWorld where
  classes := [("Processor", [processorGuid]), ("Ports", [portsGuid, modemGuid])]
  devices := [⟨processorGuid, 1, [67, 80, 85]⟩]
  sets := []

/-- The sample system after a device information set for processors has been
acquired: the set has handle 1 and one member. -/
def simWorldWithSet : SimWorld :=
  (SetupDiGetClassDevsEx simNative processorGuid "" 0 Present 0 "" 0 simWorld).1

/-- The element `EnumDeviceInfo` yields for member 0 of the processor set. -/
def simProcessor : SPDeviceInformationData := ⟨⟨32, processorGuid, 1, 0⟩, 1⟩

/-- The element `EnumDeviceInfo` yields, with an error, for member 1 of the
processor set, which has a single member. -/
def simNoMember : SPDeviceInformationData := ⟨⟨32, Guid.zero, 0, 0⟩, 1⟩

/-! ## The probing calls -/

/-- The answer of the native layer to the probing call of the class-GUID
lookup: nil buffer, capacity 0, required-size cell holding 0. -/
def probeClassGuids {σ : Type} (N : Native σ) (w : σ) (className machineName : String) :
    ClassGuidsResult σ :=
  N.setupDiClassGuidsFromNameEx w className none 0 0 machineName 0

/-- The answer of the native layer to a call of the class-GUID lookup made
right after the probing call: a zeroed buffer of `n` GUIDs, capacity `cap`,
required-size cell holding `n`. -/
def fillClassGuids {σ : Type} (N : Native σ) (w : σ) (className machineName : String)
    (n cap : Nat) : ClassGuidsResult σ :=
  N.setupDiClassGuidsFromNameEx (probeClassGuids N w className machineName).world className
    (some (List.replicate n Guid.zero)) cap n machineName 0

/-- The answer of the native layer to the probing call of the
instance-identifier lookup on element `did`: nil buffer, capacity 0,
required-size cell holding 0. -/
def probeInstanceId {σ : Type} (N : Native σ) (w : σ) (did : SPDeviceInformationData) :
    InstanceIdResult σ :=
  N.setupDiGetDeviceInstanceId w did.devInfo did.spDeviceInformationData none 0 0

/-- The answer of the native layer to a fill call of the instance-identifier
lookup made right after the probing call: a zeroed buffer of `n` code units,
capacity `n`, required-size cell holding `n`, on the record as the probe left
it. -/
def fillInstanceId {σ : Type} (N : Native σ) (w : σ) (did : SPDeviceInformationData)
    (n : Nat) : InstanceIdResult σ :=
  N.setupDiGetDeviceInstanceId (probeInstanceId N w did).world did.devInfo
    (probeInstanceId N w did).DeviceInfoData (some (List.replicate n 0)) n n

/-- The buffer of `n` code units as it stands after that fill call. -/
def filledInstanceId {σ : Type} (N : Native σ) (w : σ) (did : SPDeviceInformationData)
    (n : Nat) : List Nat :=
  store (List.replicate n 0) ((fillInstanceId N w did n).DeviceInstanceId.map uint16)

/-! ## The documented behaviour of the class-GUID lookup -/

/-- The native class-GUID lookup follows the two-phase protocol for `className`
on `machineName` from world `w`, with `gs` the registered GUIDs: the probing
call (nil buffer, capacity 0) reports `gs.length` as required size, and a call
after it that supplies a buffer writes `gs` and succeeds when the capacity is at
least `gs.length`, and fails with `ERROR_INSUFFICIENT_BUFFER` otherwise. -/
def ClassLookupBehaves {σ : Type} (N : Native σ) (w : σ) (className machineName : String)
    (gs : List Guid) : Prop :=
  (N.setupDiClassGuidsFromNameEx w className none 0 0 machineName 0).required_size = gs.length ∧
  ∀ (buf : List Guid) (cap req : Nat),
    (gs.length ≤ cap →
      (N.setupDiClassGuidsFromNameEx
        (N.setupDiClassGuidsFromNameEx w className none 0 0 machineName 0).world
        className (some buf) cap req machineName 0).guid = gs ∧
      (N.setupDiClassGuidsFromNameEx
        (N.setupDiClassGuidsFromNameEx w className none 0 0 machineName 0).world
        className (some buf) cap req machineName 0).err = none) ∧
    (cap < gs.length →
      (N.setupDiClassGuidsFromNameEx
        (N.setupDiClassGuidsFromNameEx w className none 0 0 machineName 0).world
        className (some buf) cap req machineName 0).err = some ERROR_INSUFFICIENT_BUFFER)

/-! ## Basic facts -/

theorem uint32_of_lt {n : Nat} (h : n < 2 ^ 32) : uint32 n = n :=
  Nat.mod_eq_of_lt h

theorem uint32_lt (n : Nat) : uint32 n < 2 ^ 32 :=
  Nat.mod_lt _ (by norm_num)

theorem uint32_uint32 (n : Nat) : uint32 (uint32 n) = uint32 n :=
  uint32_of_lt (uint32_lt n)

theorem store_length {α : Type} (buf written : List α) :
    (store buf written).length = buf.length := by
  unfold store
  simp only [List.length_append, List.length_take, List.length_drop]
  omega

theorem truncateNul_eq_takeWhile (s : List Nat) :
    truncateNul s = s.takeWhile (fun v => v ≠ 0) := by
  induction s with
  | nil => rfl
  | cons v rest ih =>
    by_cases hv : v = 0
    · simp [truncateNul, hv]
    · simp [truncateNul, hv, ih, List.takeWhile_cons]

/-! ## Flags -/

theorem and_flags_ne_zero_iff {f g : DIGCF} (hf : f ∈ allFlags) (hg : g ∈ allFlags) :
    f &&& g ≠ 0 ↔ f = g := by
  simp only [allFlags, Default, Present, AllClasses, Profile, DeviceInterface,
    List.mem_cons, List.mem_singleton, List.not_mem_nil, or_false] at hf hg
  rcases hf with rfl | rfl | rfl | rfl | rfl <;> rcases hg with rfl | rfl | rfl | rfl | rfl <;>
    decide

theorem or_eq_zero_iff (x y : Nat) : x ||| y = 0 ↔ x = 0 ∧ y = 0 := by
  constructor
  · intro h
    have hb : ∀ i, x.testBit i = false ∧ y.testBit i = false := by
      intro i
      have := congrArg (fun n => Nat.testBit n i) h
      simpa [Nat.testBit_or] using this
    exact ⟨Nat.eq_of_testBit_eq (by intro i; simp [(hb i).1]),
      Nat.eq_of_testBit_eq (by intro i; simp [(hb i).2])⟩
  · rintro ⟨rfl, rfl⟩
    rfl

theorem foldl_or_and_ne_zero (fs : List DIGCF) (acc g : Nat) :
    (fs.foldl (fun a f => a ||| f) acc) &&& g ≠ 0 ↔
      acc &&& g ≠ 0 ∨ ∃ f ∈ fs, f &&& g ≠ 0 := by
  induction fs generalizing acc with
  | nil => simp
  | cons f rest ih =>
    rw [List.foldl_cons, ih, Nat.and_distrib_right]
    simp only [ne_eq, or_eq_zero_iff, not_and_or, List.mem_cons, exists_eq_or_imp]
    tauto

theorem foldl_or_lt (fs : List DIGCF) (acc : Nat) (hacc : acc < 2 ^ 5)
    (hfs : ∀ f ∈ fs, f ∈ allFlags) : fs.foldl (fun a f => a ||| f) acc < 2 ^ 5 := by
  induction fs generalizing acc with
  | nil => simpa using hacc
  | cons f rest ih =>
    rw [List.foldl_cons]
    apply ih
    · apply Nat.or_lt_two_pow hacc
      have hf := hfs f (List.mem_cons_self _ _)
      simp only [allFlags, Default, Present, AllClasses, Profile, DeviceInterface,
        List.mem_cons, List.mem_singleton, List.not_mem_nil, or_false] at hf
      rcases hf with rfl | rfl | rfl | rfl | rfl <;> decide
    · intro g hg
      exact hfs g (List.mem_cons_of_mem _ hg)

/-- C10: the flag constants have the values 0x1, 0x2, 0x4, 0x8, 0x10 and 0x10,
`DeviceInterface` and `InterfaceDevice` are equal, the five distinct values are
single bits that are pairwise disjoint, and for every list of flags the
bitwise OR, as a 32-bit value, contains the bit of a flag exactly when that flag
was in the list; so two combinations with the same OR combine the same flags. -/
theorem flag_values_and_or_decodes :
    (Default = 0x1 ∧ Present = 0x2 ∧ AllClasses = 0x4 ∧ Profile = 0x8 ∧
      DeviceInterface = 0x10 ∧ InterfaceDevice = 0x10) ∧
    DeviceInterface = InterfaceDevice ∧
    allFlags = [2 ^ 0, 2 ^ 1, 2 ^ 2, 2 ^ 3, 2 ^ 4] ∧
    allFlags.Pairwise (fun f g => f ≠ g ∧ f &&& g = 0) ∧
    (∀ fs : List DIGCF, (∀ f ∈ fs, f ∈ allFlags) →
      uint32 (combine fs) = combine fs ∧
      ∀ g ∈ allFlags, (g ∈ fs ↔ uint32 (combine fs) &&& g ≠ 0)) ∧
    (∀ fs gs : List DIGCF, (∀ f ∈ fs, f ∈ allFlags) → (∀ f ∈ gs, f ∈ allFlags) →
      uint32 (combine fs) = uint32 (combine gs) → ∀ g ∈ allFlags, (g ∈ fs ↔ g ∈ gs)) := by
  have key : ∀ fs : List DIGCF, (∀ f ∈ fs, f ∈ allFlags) →
      uint32 (combine fs) = combine fs ∧
      ∀ g ∈ allFlags, (g ∈ fs ↔ uint32 (combine fs) &&& g ≠ 0) := by
    intro fs hfs
    have hlt : combine fs < 2 ^ 5 := foldl_or_lt fs 0 (by decide) hfs
    have h32 : uint32 (combine fs) = combine fs :=
      uint32_of_lt (lt_of_lt_of_le hlt (by norm_num))
    refine ⟨h32, fun g hg => ?_⟩
    rw [h32, combine, foldl_or_and_ne_zero]
    constructor
    · intro hmem
      exact Or.inr ⟨g, hmem, (and_flags_ne_zero_iff hg hg).2 rfl⟩
    · rintro (h0 | ⟨f, hf, hfg⟩)
      · simp at h0
      · have := (and_flags_ne_zero_iff (hfs f hf) hg).1 hfg
        exact this ▸ hf
  refine ⟨⟨rfl, rfl, rfl, rfl, rfl, rfl⟩, rfl, rfl, by decide, key, ?_⟩
  intro fs gs hfs hgs heq g hg
  rw [(key fs hfs).2 g hg, (key gs hgs).2 g hg, heq]

/-- Witness for C10: the combination `Present | Profile`. -/
theorem flag_values_and_or_decodes_witness :
    (∀ f ∈ [Present, Profile], f ∈ allFlags) ∧
    uint32 (combine [Present, Profile]) = combine [Present, Profile] ∧
    ∀ g ∈ allFlags, (g ∈ [Present, Profile] ↔ uint32 (combine [Present, Profile]) &&& g ≠ 0) :=
  ⟨by decide, flag_values_and_or_decodes.2.2.2.2.1 [Present, Profile] (by decide)⟩

/-! ## `Guid.String` -/

/-- C9: at the GUID with first field 0x1234 the first group of `Guid.String`
has six digits, not eight, and the text is 36 characters long, not 38; at a
GUID whose first field has eight significant digits the text is canonical. -/
theorem guid_string_first_group_six_digits :
    Guid.String ⟨0x1234, 0xABCD, 0x12, [1, 2, 3, 4, 5, 6, 7, 8]⟩
      = "\x7b001234-ABCD-0012-0102-030405060708\x7d" ∧
    (Guid.String ⟨0x1234, 0xABCD, 0x12, [1, 2, 3, 4, 5, 6, 7, 8]⟩).length = 36 ∧
    Guid.String processorGuid = "\x7b50127DC3-0F36-415E-A6CC-4CB3BE910B65\x7d" := by
  refine ⟨by decide, by decide, by decide⟩

/-! ## `SetupDiGetClassDevsEx` -/

/-- C8: `SetupDiGetClassDevsEx` makes one native call; the enumerator it passes
is absent when the enumerator string is empty and is that string otherwise; the
GUID, parent handle, flags, existing set and machine name are passed as given;
the handle and error returned are those of the native call. -/
theorem getClassDevsEx_passes_arguments {σ : Type} (N : Native σ) (w : σ) (ClassGuid : Guid)
    (Enumerator : String) (hwndParent : Nat) (Flags : DIGCF) (DeviceInfoSet : Nat)
    (MachineName : String) (reserved : Nat) (hFlags : Flags < 2 ^ 32) :
    ∃ enumerator : Option String,
      (Enumerator = "" → enumerator = none) ∧
      (Enumerator ≠ "" → enumerator = some Enumerator) ∧
      (SetupDiGetClassDevsEx (traced N) ClassGuid Enumerator hwndParent Flags DeviceInfoSet
          MachineName reserved (w, [])).1.2.map Event.call =
        [.getClassDevsEx ClassGuid enumerator hwndParent Flags DeviceInfoSet MachineName 0] ∧
      (SetupDiGetClassDevsEx (traced N) ClassGuid Enumerator hwndParent Flags DeviceInfoSet
          MachineName reserved (w, [])).2 =
        ((N.setupDiGetClassDevsEx w ClassGuid enumerator hwndParent Flags DeviceInfoSet
            MachineName 0).handle,
         (N.setupDiGetClassDevsEx w ClassGuid enumerator hwndParent Flags DeviceInfoSet
            MachineName 0).err) := by
  refine ⟨if Enumerator = "" then none else some Enumerator, ?_, ?_, ?_, ?_⟩
  · intro h
    simp [h]
  · intro h
    simp [h]
  · simp [SetupDiGetClassDevsEx, traced, uint32_of_lt hFlags]
  · simp [SetupDiGetClassDevsEx, traced, uint32_of_lt hFlags]

/-- Witness for C8: the call of the test, with flag `Present` and an empty
enumerator, on the sample system. -/
theorem getClassDevsEx_passes_arguments_witness :
    Present < 2 ^ 32 ∧
    ∃ enumerator : Option String,
      (("" : String) = "" → enumerator = none) ∧
      (("" : String) ≠ "" → enumerator = some "") ∧
      (SetupDiGetClassDevsEx (traced simNative) processorGuid "" 0 Present 0 "" 0
          (simWorld, [])).1.2.map Event.call =
        [.getClassDevsEx processorGuid enumerator 0 Present 0 "" 0] ∧
      (SetupDiGetClassDevsEx (traced simNative) processorGuid "" 0 Present 0 "" 0
          (simWorld, [])).2 =
        ((simNative.setupDiGetClassDevsEx simWorld processorGuid enumerator 0 Present 0
            "" 0).handle,
         (simNative.setupDiGetClassDevsEx simWorld processorGuid enumerator 0 Present 0
            "" 0).err) :=
  ⟨by decide,
    getClassDevsEx_passes_arguments simNative simWorld processorGuid "" 0 Present 0 "" 0
      (by decide)⟩

/-! ## `EnumDeviceInfo` -/

/-- C6: the record `EnumDeviceInfo` hands to the native call has its size
field equal to the size of the record structure (4 + 16 + 4 bytes and a
pointer: 32 bytes with 8-byte pointers, 28 with 4-byte pointers) and all other
fields zero; when the native call leaves the size field as it was, the returned
element has that size in its size field. -/
theorem enumDeviceInfo_record_size {σ : Type} (N : Native σ) (w : σ) (a : Arch) (di : DevInfo)
    (memberIndex : Nat) :
    sizeofDeviceInformationData a = 4 + 16 + 4 + a.ptrBytes ∧
    sizeofDeviceInformationData .amd64 = 32 ∧
    sizeofDeviceInformationData .x86 = 28 ∧
    (DevInfo.EnumDeviceInfo (traced N) a di memberIndex (w, [])).1.2.map Event.call =
      [.enumDeviceInfo di memberIndex ⟨sizeofDeviceInformationData a, Guid.zero, 0, 0⟩] ∧
    ((N.setupDiEnumDeviceInfo w di memberIndex
        ⟨sizeofDeviceInformationData a, Guid.zero, 0, 0⟩).DeviceInfoData.cbSize
        = sizeofDeviceInformationData a →
      ∃ e, (DevInfo.EnumDeviceInfo (traced N) a di memberIndex (w, [])).2.1 = some e ∧
        e.spDeviceInformationData.cbSize = sizeofDeviceInformationData a) := by
  have hsz : uint32 (sizeofDeviceInformationData a) = sizeofDeviceInformationData a := by
    cases a <;> decide
  refine ⟨by cases a <;> decide, by decide, by decide, ?_, ?_⟩
  · simp [DevInfo.EnumDeviceInfo, traced, hsz]
  · intro h
    refine ⟨_, rfl, ?_⟩
    simpa [traced, hsz] using h

/-- Witness for C6: member 0 of the processor set of the sample system. -/
theorem enumDeviceInfo_record_size_witness :
    (simNative.setupDiEnumDeviceInfo simWorldWithSet 1 0
        ⟨sizeofDeviceInformationData .amd64, Guid.zero, 0, 0⟩).DeviceInfoData.cbSize
        = sizeofDeviceInformationData .amd64 ∧
    ∃ e, (DevInfo.EnumDeviceInfo (traced simNative) .amd64 1 0 (simWorldWithSet, [])).2.1
        = some e ∧
      e.spDeviceInformationData.cbSize = sizeofDeviceInformationData .amd64 :=
  ⟨by decide,
    (enumDeviceInfo_record_size simNative simWorldWithSet .amd64 1 0).2.2.2.2 (by decide)⟩

/-- C5, as the code has it: when the native enumeration call reports an error,
`EnumDeviceInfo` returns that error together with a non-nil element, which
holds the record as the native call left it and the set handle. -/
theorem enumDeviceInfo_error_with_element {σ : Type} (N : Native σ) (w : σ) (a : Arch)
    (di : DevInfo) (memberIndex : Nat) (e : Errno)
    (herr : (N.setupDiEnumDeviceInfo w di memberIndex
      ⟨uint32 (sizeofDeviceInformationData a), Guid.zero, 0, 0⟩).err = some e) :
    (DevInfo.EnumDeviceInfo N a di memberIndex w).2.2 = some e ∧
    (DevInfo.EnumDeviceInfo N a di memberIndex w).2.1 =
      some ⟨(N.setupDiEnumDeviceInfo w di memberIndex
        ⟨uint32 (sizeofDeviceInformationData a), Guid.zero, 0, 0⟩).DeviceInfoData, di⟩ :=
  ⟨herr, rfl⟩

/-- Witness for C5 as amended: member 1 of the processor set, which has one
member. -/
theorem enumDeviceInfo_error_with_element_witness :
    (simNative.setupDiEnumDeviceInfo simWorldWithSet 1 1
      ⟨uint32 (sizeofDeviceInformationData .amd64), Guid.zero, 0, 0⟩).err
      = some ERROR_NO_MORE_ITEMS ∧
    (DevInfo.EnumDeviceInfo simNative .amd64 1 1 simWorldWithSet).2.2
      = some ERROR_NO_MORE_ITEMS ∧
    (DevInfo.EnumDeviceInfo simNative .amd64 1 1 simWorldWithSet).2.1 =
      some ⟨(simNative.setupDiEnumDeviceInfo simWorldWithSet 1 1
        ⟨uint32 (sizeofDeviceInformationData .amd64), Guid.zero, 0, 0⟩).DeviceInfoData, 1⟩ :=
  ⟨by decide,
    enumDeviceInfo_error_with_element simNative simWorldWithSet .amd64 1 1 ERROR_NO_MORE_ITEMS
      (by decide)⟩

/-- C5, counterexample: for member index 1 of a set with one member the native
call reports `ERROR_NO_MORE_ITEMS`, and `EnumDeviceInfo` returns that error with
an element pointer that is not nil. -/
theorem enumDeviceInfo_failed_returns_non_nil :
    (simNative.setupDiEnumDeviceInfo simWorldWithSet 1 1
      ⟨uint32 (sizeofDeviceInformationData .amd64), Guid.zero, 0, 0⟩).err
      = some ERROR_NO_MORE_ITEMS ∧
    (DevInfo.EnumDeviceInfo simNative .amd64 1 1 simWorldWithSet).2.2
      = some ERROR_NO_MORE_ITEMS ∧
    (DevInfo.EnumDeviceInfo simNative .amd64 1 1 simWorldWithSet).2.1 = some simNoMember ∧
    (DevInfo.EnumDeviceInfo simNative .amd64 1 1 simWorldWithSet).2.1 ≠ none := by
  refine ⟨by decide, by decide, by decide, by decide⟩

/-! ## `InstanceID` -/

/-- C7: the element `di.EnumDeviceInfo(i)` returns stores `di` as its set
handle; every native call `InstanceID` makes on that element, from any world,
is an instance-identifier lookup with set handle `di`; the first is the probing
call on the record of the element; and when the probe reports a required size
`n` of at least one, the calls are exactly the probing call and the fill call,
the fill call too on set handle `di` and on the record of the element (as it
stands after the probe), with a buffer of `n` code units and capacity `n`. -/
theorem instanceID_uses_parent_handle {σ : Type} (N : Native σ) (w w1 : σ) (a : Arch)
    (di : DevInfo) (memberIndex : Nat) :
    ∃ e, (DevInfo.EnumDeviceInfo N a di memberIndex w).2.1 = some e ∧ e.devInfo = di ∧
      (∀ ev ∈ (SPDeviceInformationData.InstanceID (traced N) e (w1, [])).1.2,
        ∃ rec buf size req, ev.call = .getDeviceInstanceId di rec buf size req) ∧
      ((SPDeviceInformationData.InstanceID (traced N) e (w1, [])).1.2.head?.map Event.call
        = some (.getDeviceInstanceId di e.spDeviceInformationData none 0 0)) ∧
      (1 ≤ uint32 (probeInstanceId N w1 e).RequiredSize →
        (SPDeviceInformationData.InstanceID (traced N) e (w1, [])).1.2.map Event.call =
          [.getDeviceInstanceId di e.spDeviceInformationData none 0 0,
           .getDeviceInstanceId di (probeInstanceId N w1 e).DeviceInfoData
             (some (List.replicate (uint32 (probeInstanceId N w1 e).RequiredSize) 0))
             (uint32 (probeInstanceId N w1 e).RequiredSize)
             (uint32 (probeInstanceId N w1 e).RequiredSize)]) := by
  refine ⟨_, rfl, rfl, ?_, ?_, ?_⟩
  · intro ev hev
    simp only [SPDeviceInformationData.InstanceID, traced, uint32, List.length_replicate]
      at hev
    split at hev
    · split at hev <;>
        (simp only [List.nil_append, List.cons_append, List.mem_cons, List.mem_singleton,
          List.not_mem_nil, or_false] at hev
         rcases hev with rfl | rfl <;> exact ⟨_, _, _, _, rfl⟩)
    · simp only [List.nil_append, List.mem_singleton] at hev
      subst hev
      exact ⟨_, _, _, _, rfl⟩
  · simp only [SPDeviceInformationData.InstanceID, traced, uint32, List.length_replicate]
    split
    · split <;> rfl
    · rfl
  · intro h
    have h0 : uint32 0 = 0 := rfl
    simp only [probeInstanceId] at h ⊢
    simp only [SPDeviceInformationData.InstanceID, traced, List.length_replicate, h0]
    rw [if_pos (by exact h)]
    split <;> simp [uint32_uint32]

/-- Witness for C7: member 0 of the processor set of the sample system. -/
theorem instanceID_uses_parent_handle_witness :
    1 ≤ uint32 (probeInstanceId simNative simWorldWithSet simProcessor).RequiredSize ∧
    (DevInfo.EnumDeviceInfo simNative .amd64 1 0 simWorldWithSet).2.1 = some simProcessor ∧
    ∃ e, (DevInfo.EnumDeviceInfo simNative .amd64 1 0 simWorldWithSet).2.1 = some e ∧
      e.devInfo = 1 ∧
      (∀ ev ∈ (SPDeviceInformationData.InstanceID (traced simNative) e
          (simWorldWithSet, [])).1.2,
        ∃ rec buf size req, ev.call = .getDeviceInstanceId 1 rec buf size req) ∧
      ((SPDeviceInformationData.InstanceID (traced simNative) e
          (simWorldWithSet, [])).1.2.head?.map Event.call
        = some (.getDeviceInstanceId 1 e.spDeviceInformationData none 0 0)) ∧
      (1 ≤ uint32 (probeInstanceId simNative simWorldWithSet e).RequiredSize →
        (SPDeviceInformationData.InstanceID (traced simNative) e
            (simWorldWithSet, [])).1.2.map Event.call =
          [.getDeviceInstanceId 1 e.spDeviceInformationData none 0 0,
           .getDeviceInstanceId 1 (probeInstanceId simNative simWorldWithSet e).DeviceInfoData
             (some (List.replicate
               (uint32 (probeInstanceId simNative simWorldWithSet e).RequiredSize) 0))
             (uint32 (probeInstanceId simNative simWorldWithSet e).RequiredSize)
             (uint32 (probeInstanceId simNative simWorldWithSet e).RequiredSize)]) :=
  ⟨by decide, by decide,
    instanceID_uses_parent_handle simNative simWorldWithSet simWorldWithSet .amd64 1 0⟩

/-- C2: when the probing call of `InstanceID` reports a required size of `n`
code units, `n` at least one, `InstanceID` makes the fill call with a buffer of
exactly `n` code units and capacity `n`; when the fill call succeeds it returns,
with no error, the text decoded from the filled code units before the first
NUL. -/
theorem instanceID_allocates_and_decodes {σ : Type} (N : Native σ) (w : σ)
    (did : SPDeviceInformationData) (n : Nat) (hn : 1 ≤ n) (h32 : n < 2 ^ 32)
    (hprobe : (probeInstanceId N w did).RequiredSize = n) :
    (SPDeviceInformationData.InstanceID (traced N) did (w, [])).1.2.map Event.call =
      [.getDeviceInstanceId did.devInfo did.spDeviceInformationData none 0 0,
       .getDeviceInstanceId did.devInfo (probeInstanceId N w did).DeviceInfoData
         (some (List.replicate n 0)) n n] ∧
    (List.replicate n (0 : Nat)).length = n ∧
    (filledInstanceId N w did n).length = n ∧
    ((fillInstanceId N w did n).err = none →
      (SPDeviceInformationData.InstanceID (traced N) did (w, [])).2.2 =
        .ok (String.mk (utf16Decode
          ((filledInstanceId N w did n).takeWhile (fun v => v ≠ 0))), none)) := by
  have h0 : uint32 0 = 0 := rfl
  have hn32 : uint32 n = n := uint32_of_lt h32
  have hpos : 0 < uint32 n := by omega
  simp only [probeInstanceId] at hprobe
  refine ⟨?_, List.length_replicate _ _, ?_, ?_⟩
  · simp only [SPDeviceInformationData.InstanceID, traced, List.length_replicate, h0, hprobe,
      probeInstanceId]
    rw [if_pos hpos]
    split <;> simp [hn32]
  · simp [filledInstanceId, store_length]
  · intro hfill
    simp only [fillInstanceId, probeInstanceId, hprobe] at hfill
    simp only [SPDeviceInformationData.InstanceID, traced, List.length_replicate, h0, hprobe,
      probeInstanceId, fillInstanceId, filledInstanceId, hn32]
    rw [if_pos (by omega)]
    simp only [hprobe, hfill, UTF16ToString, truncateNul_eq_takeWhile]

/-- Witness for C2: the processor of the sample system, whose identifier "CPU"
needs four code units with its terminator. -/
theorem instanceID_allocates_and_decodes_witness :
    (probeInstanceId simNative simWorldWithSet simProcessor).RequiredSize = 4 ∧
    (fillInstanceId simNative simWorldWithSet simProcessor 4).err = none ∧
    (SPDeviceInformationData.InstanceID (traced simNative) simProcessor
        (simWorldWithSet, [])).2.2 = .ok ("CPU", none) :=
  ⟨by decide, by decide,
    ((instanceID_allocates_and_decodes simNative simWorldWithSet simProcessor 4 (by decide)
      (by decide) (by decide)).2.2.2 (by decide)).trans rfl⟩

/-! ## The two-phase operations -/

/-- C3: in both two-phase operations, when the probing call reports a required
size `n` of at least one, exactly two native calls are made: the probing call
(nil buffer, capacity 0) and then the fill call on a zeroed buffer of `n`
entries; the error returned to the caller is the error status of that fill
call, whatever the status of the probing call.  `InstanceID` returns the empty
string when the fill call fails and the decoded buffer when it succeeds. -/
theorem two_phase_error_is_fill_error {σ : Type} (N : Native σ) (w : σ)
    (className machineName : String) (did : SPDeviceInformationData) :
    (1 ≤ uint32 (probeClassGuids N w className machineName).required_size →
      (SetupDiClassGuidsFromNameEx (traced N) className machineName (w, [])).1.2 =
        [⟨.classGuidsFromNameEx className none 0 0 machineName 0,
            (probeClassGuids N w className machineName).err⟩,
         ⟨.classGuidsFromNameEx className
            (some (List.replicate
              (uint32 (probeClassGuids N w className machineName).required_size) Guid.zero))
            1 (uint32 (probeClassGuids N w className machineName).required_size) machineName 0,
            (fillClassGuids N w className machineName
              (uint32 (probeClassGuids N w className machineName).required_size) 1).err⟩] ∧
      (SetupDiClassGuidsFromNameEx (traced N) className machineName (w, [])).2 =
        .ok (store
          (List.replicate
            (uint32 (probeClassGuids N w className machineName).required_size) Guid.zero)
          (fillClassGuids N w className machineName
            (uint32 (probeClassGuids N w className machineName).required_size) 1).guid,
          (fillClassGuids N w className machineName
            (uint32 (probeClassGuids N w className machineName).required_size) 1).err)) ∧
    (1 ≤ uint32 (probeInstanceId N w did).RequiredSize →
      (SPDeviceInformationData.InstanceID (traced N) did (w, [])).1.2 =
        [⟨.getDeviceInstanceId did.devInfo did.spDeviceInformationData none 0 0,
            (probeInstanceId N w did).err⟩,
         ⟨.getDeviceInstanceId did.devInfo (probeInstanceId N w did).DeviceInfoData
            (some (List.replicate (uint32 (probeInstanceId N w did).RequiredSize) 0))
            (uint32 (probeInstanceId N w did).RequiredSize)
            (uint32 (probeInstanceId N w did).RequiredSize),
            (fillInstanceId N w did (uint32 (probeInstanceId N w did).RequiredSize)).err⟩] ∧
      ∃ text,
        (SPDeviceInformationData.InstanceID (traced N) did (w, [])).2.2 =
          .ok (text,
            (fillInstanceId N w did (uint32 (probeInstanceId N w did).RequiredSize)).err) ∧
        ((fillInstanceId N w did (uint32 (probeInstanceId N w did).RequiredSize)).err ≠ none →
          text = "") ∧
        ((fillInstanceId N w did (uint32 (probeInstanceId N w did).RequiredSize)).err = none →
          text = UTF16ToString
            (filledInstanceId N w did (uint32 (probeInstanceId N w did).RequiredSize)))) := by
  have h0 : uint32 0 = 0 := rfl
  constructor
  · intro h
    simp only [probeClassGuids, fillClassGuids] at h ⊢
    simp only [SetupDiClassGuidsFromNameEx, traced, List.length_replicate, h0]
    rw [if_pos (by exact h)]
    exact ⟨rfl, rfl⟩
  · intro h
    rcases hE : (fillInstanceId N w did (uint32 (probeInstanceId N w did).RequiredSize)).err
      with _ | e
    all_goals
      simp only [probeInstanceId, fillInstanceId, filledInstanceId] at h hE ⊢
      simp only [SPDeviceInformationData.InstanceID, traced, List.length_replicate, h0,
        uint32_uint32]
      rw [if_pos (by exact h)]
      simp only [hE]
    · exact ⟨rfl, _, rfl, fun hne => absurd rfl hne, fun _ => rfl⟩
    · refine ⟨rfl, "", rfl, fun _ => rfl, fun hne => ?_⟩
      cases hne

/-- Witness for C3: class "Processor" of the sample system and its processor;
in both the probing call fails with `ERROR_INSUFFICIENT_BUFFER`, the fill call
succeeds, and no error is returned. -/
theorem two_phase_error_is_fill_error_witness :
    (1 ≤ uint32 (probeClassGuids simNative simWorld "Processor" "").required_size ∧
      (probeClassGuids simNative simWorld "Processor" "").err
        = some ERROR_INSUFFICIENT_BUFFER ∧
      (fillClassGuids simNative simWorld "Processor" "" 1 1).err = none ∧
      (SetupDiClassGuidsFromNameEx (traced simNative) "Processor" "" (simWorld, [])).2 =
        .ok ([processorGuid], none)) ∧
    (1 ≤ uint32 (probeInstanceId simNative simWorldWithSet simProcessor).RequiredSize ∧
      (probeInstanceId simNative simWorldWithSet simProcessor).err
        = some ERROR_INSUFFICIENT_BUFFER ∧
      (fillInstanceId simNative simWorldWithSet simProcessor 4).err = none ∧
      (SPDeviceInformationData.InstanceID (traced simNative) simProcessor
          (simWorldWithSet, [])).1.2.map Event.err
        = [some ERROR_INSUFFICIENT_BUFFER, none]) :=
  ⟨⟨by decide, by decide, by decide,
      ((two_phase_error_is_fill_error simNative simWorld "Processor" "" simProcessor).1
        (by decide)).2.trans rfl⟩,
    ⟨by decide, by decide, by decide,
      (congrArg (List.map Event.err)
        ((two_phase_error_is_fill_error simNative simWorldWithSet "Processor" ""
          simProcessor).2 (by decide)).1).trans rfl⟩⟩

/-- C1, at a class with two registered GUIDs: the sample native layer follows
the two-phase protocol for class "Ports", the probe reports a required size of
2, and `SetupDiClassGuidsFromNameEx` passes capacity 1 to the fill call, which
therefore fails: the operation returns `ERROR_INSUFFICIENT_BUFFER` and a list
whose second entry is the zero GUID. -/
theorem classGuids_fill_capacity_is_one :
    ClassLookupBehaves simNative simWorld "Ports" "" [portsGuid, modemGuid] ∧
    (probeClassGuids simNative simWorld "Ports" "").required_size = 2 ∧
    (SetupDiClassGuidsFromNameEx (traced simNative) "Ports" "" (simWorld, [])).1.2.map
        Event.call =
      [.classGuidsFromNameEx "Ports" none 0 0 "" 0,
       .classGuidsFromNameEx "Ports" (some [Guid.zero, Guid.zero]) 1 2 "" 0] ∧
    (SetupDiClassGuidsFromNameEx (traced simNative) "Ports" "" (simWorld, [])).2 =
      .ok ([portsGuid, Guid.zero], some ERROR_INSUFFICIENT_BUFFER) := by
  have hg : simWorld.guidsOf "Ports" = [portsGuid, modemGuid] := by decide
  refine ⟨⟨by decide, fun buf cap req => ⟨fun h => ?_, fun h => ?_⟩⟩, by decide, by decide, rfl⟩
  · simp only [List.length_cons, List.length_nil] at h
    have h2 : 2 ≤ cap := h
    simp [simNative, hg, h2]
  · simp only [List.length_cons, List.length_nil] at h
    have h2 : ¬ 2 ≤ cap := by omega
    simp [simNative, hg, h2]

/-- C4, at a probe that reports a required size of 0: for a class name that is
not registered the probing call fails with `ERROR_INVALID_CLASS` and reports 0,
and `SetupDiClassGuidsFromNameEx` panics on element 0 of its empty list; for
the element of a failed enumeration the probing call fails with
`ERROR_NO_SUCH_DEVINST` and reports 0, and `InstanceID` panics on element 0 of
its empty buffer. -/
theorem two_phase_panics_when_probe_reports_zero :
    (probeClassGuids simNative simWorld "NoSuchClass" "").err = some ERROR_INVALID_CLASS ∧
    (probeClassGuids simNative simWorld "NoSuchClass" "").required_size = 0 ∧
    (SetupDiClassGuidsFromNameEx simNative "NoSuchClass" "" simWorld).2 =
      .error (.indexOutOfRange 0 0) ∧
    (DevInfo.EnumDeviceInfo simNative .amd64 1 1 simWorldWithSet).2.1 = some simNoMember ∧
    (probeInstanceId simNative simWorldWithSet simNoMember).err = some ERROR_NO_SUCH_DEVINST ∧
    (probeInstanceId simNative simWorldWithSet simNoMember).RequiredSize = 0 ∧
    (SPDeviceInformationData.InstanceID simNative simNoMember simWorldWithSet).2.2 =
      .error (.indexOutOfRange 0 0) := by
  refine ⟨by decide, by decide, rfl, by decide, by decide, by decide, rfl⟩

end Setupapi
